import Mathlib

/-!
Shallow embedding of `src/implementors/core/ops/trait.SubAssign.js`, a
generated rustdoc implementor-registry fragment.  The file is an IIFE that
builds an object literal `implementors` mapping library names to lists of
pre-rendered HTML fragment strings, then either calls the global hook
`window.register_implementors(implementors)` (when that hook is defined) or
stores the registry in the global slot `window.pending_implementors`.

The registry object is modeled as an insertion-ordered association list, JS
property assignment as `objSet`, property read as `objGet`.  The browser
`window` is modeled as a structure holding the two global bindings the script
touches plus an abstract component `other` standing for every other global
binding.  The host hook may throw (modeled as `Except`); its own effects on
globals are the host responsibility and are outside the step modeled here.
-/

namespace Implementors

/-- A pre-rendered HTML markup fragment, treated as an opaque string. -/
abbrev Fragment := String

/-- A JS object mapping library identifiers to fragment lists, modeled as an
insertion-ordered association list. -/
abbrev Registry := List (String × List Fragment)

/-- JS property assignment `o[k] = v` on an insertion-ordered object: an
existing key is rebound in place, a fresh key is appended at the end. -/
def objSet (o : Registry) (k : String) (v : List Fragment) : Registry :=
  if o.any (fun p => p.1 = k) then
    o.map (fun p => if p.1 = k then (k, v) else p)
  else
    o ++ [(k, v)]

/-- JS property read `o[k]`: the value bound to `k`, if any. -/
def objGet (o : Registry) (k : String) : Option (List Fragment) :=
  (o.find? (fun p => p.1 = k)).map Prod.snd

def fragWcResize : Fragment :=
  "impl <a class=\x27trait\x27 href=\x27https://doc.rust-lang.org/nightly/core/ops/trait.SubAssign.html\x27 title=\x27core::ops::SubAssign\x27>SubAssign</a> for <a class=\x27struct\x27 href=\x27wayland_client/wayland/shell/WlShellSurfaceResize/struct.WlShellSurfaceResize.html\x27 title=\x27wayland_client::wayland::shell::WlShellSurfaceResize::WlShellSurfaceResize\x27>WlShellSurfaceResize</a>"

def fragWcTransient : Fragment :=
  "impl <a class=\x27trait\x27 href=\x27https://doc.rust-lang.org/nightly/core/ops/trait.SubAssign.html\x27 title=\x27core::ops::SubAssign\x27>SubAssign</a> for <a class=\x27struct\x27 href=\x27wayland_client/wayland/shell/WlShellSurfaceTransient/struct.WlShellSurfaceTransient.html\x27 title=\x27wayland_client::wayland::shell::WlShellSurfaceTransient::WlShellSurfaceTransient\x27>WlShellSurfaceTransient</a>"

def fragWcSeat : Fragment :=
  "impl <a class=\x27trait\x27 href=\x27https://doc.rust-lang.org/nightly/core/ops/trait.SubAssign.html\x27 title=\x27core::ops::SubAssign\x27>SubAssign</a> for <a class=\x27struct\x27 href=\x27wayland_client/wayland/seat/WlSeatCapability/struct.WlSeatCapability.html\x27 title=\x27wayland_client::wayland::seat::WlSeatCapability::WlSeatCapability\x27>WlSeatCapability</a>"

def fragWcOutput : Fragment :=
  "impl <a class=\x27trait\x27 href=\x27https://doc.rust-lang.org/nightly/core/ops/trait.SubAssign.html\x27 title=\x27core::ops::SubAssign\x27>SubAssign</a> for <a class=\x27struct\x27 href=\x27wayland_client/wayland/output/WlOutputMode/struct.WlOutputMode.html\x27 title=\x27wayland_client::wayland::output::WlOutputMode::WlOutputMode\x27>WlOutputMode</a>"

def fragWwResize : Fragment :=
  "impl <a class=\x27trait\x27 href=\x27https://doc.rust-lang.org/nightly/core/ops/trait.SubAssign.html\x27 title=\x27core::ops::SubAssign\x27>SubAssign</a>&lt;<a class=\x27struct\x27 href=\x27wayland_client/sys/wayland/client/WlShellSurfaceResize/struct.WlShellSurfaceResize.html\x27 title=\x27wayland_client::sys::wayland::client::WlShellSurfaceResize::WlShellSurfaceResize\x27>WlShellSurfaceResize</a>&gt; for <a class=\x27struct\x27 href=\x27wayland_client/sys/wayland/client/WlShellSurfaceResize/struct.WlShellSurfaceResize.html\x27 title=\x27wayland_client::sys::wayland::client::WlShellSurfaceResize::WlShellSurfaceResize\x27>WlShellSurfaceResize</a>"

def fragWwTransient : Fragment :=
  "impl <a class=\x27trait\x27 href=\x27https://doc.rust-lang.org/nightly/core/ops/trait.SubAssign.html\x27 title=\x27core::ops::SubAssign\x27>SubAssign</a>&lt;<a class=\x27struct\x27 href=\x27wayland_client/sys/wayland/client/WlShellSurfaceTransient/struct.WlShellSurfaceTransient.html\x27 title=\x27wayland_client::sys::wayland::client::WlShellSurfaceTransient::WlShellSurfaceTransient\x27>WlShellSurfaceTransient</a>&gt; for <a class=\x27struct\x27 href=\x27wayland_client/sys/wayland/client/WlShellSurfaceTransient/struct.WlShellSurfaceTransient.html\x27 title=\x27wayland_client::sys::wayland::client::WlShellSurfaceTransient::WlShellSurfaceTransient\x27>WlShellSurfaceTransient</a>"

def fragWwSeat : Fragment :=
  "impl <a class=\x27trait\x27 href=\x27https://doc.rust-lang.org/nightly/core/ops/trait.SubAssign.html\x27 title=\x27core::ops::SubAssign\x27>SubAssign</a>&lt;<a class=\x27struct\x27 href=\x27wayland_client/sys/wayland/client/WlSeatCapability/struct.WlSeatCapability.html\x27 title=\x27wayland_client::sys::wayland::client::WlSeatCapability::WlSeatCapability\x27>WlSeatCapability</a>&gt; for <a class=\x27struct\x27 href=\x27wayland_client/sys/wayland/client/WlSeatCapability/struct.WlSeatCapability.html\x27 title=\x27wayland_client::sys::wayland::client::WlSeatCapability::WlSeatCapability\x27>WlSeatCapability</a>"

def fragWwOutput : Fragment :=
  "impl <a class=\x27trait\x27 href=\x27https://doc.rust-lang.org/nightly/core/ops/trait.SubAssign.html\x27 title=\x27core::ops::SubAssign\x27>SubAssign</a>&lt;<a class=\x27struct\x27 href=\x27wayland_client/sys/wayland/client/WlOutputMode/struct.WlOutputMode.html\x27 title=\x27wayland_client::sys::wayland::client::WlOutputMode::WlOutputMode\x27>WlOutputMode</a>&gt; for <a class=\x27struct\x27 href=\x27wayland_client/sys/wayland/client/WlOutputMode/struct.WlOutputMode.html\x27 title=\x27wayland_client::sys::wayland::client::WlOutputMode::WlOutputMode\x27>WlOutputMode</a>"

/-- The list assigned to `implementors[\x27wayland_client\x27]`: four distinct
fragments, each occurring twice, in the order authored in the source. -/
def waylandClientList : List Fragment :=
  [fragWcResize, fragWcTransient, fragWcSeat, fragWcOutput,
   fragWcOutput, fragWcSeat, fragWcResize, fragWcTransient]

/-- The list assigned to `implementors[\x27wayland_window\x27]`: four distinct
fragments, in the order authored in the source. -/
def waylandWindowList : List Fragment :=
  [fragWwResize, fragWwTransient, fragWwSeat, fragWwOutput]

/-- The registry construction performed at load time: the empty object literal
followed by the ten property assignments, in source order.  The construction
reads nothing from the ambient environment, which is reflected by the unused
parameter `_env` of arbitrary type. -/
def buildRegistry {α : Type} (_env : α) : Registry :=
  objSet (objSet (objSet (objSet (objSet (objSet (objSet (objSet (objSet (objSet
    [] "libloading" []) "libc" []) "dlib" []) "wayland_sys" [])
    "shared_library" []) "wayland_client" waylandClientList) "tempfile" [])
    "wayland_window" waylandWindowList) "wayland_kbd" []) "winit" []

/-- The registry value `var implementors` holds when the publish branch runs. -/
def implementors : Registry := buildRegistry ()

/-- The authored table, written out directly as an association-list literal
(keys in source assignment order, each with its authored fragment list). -/
def authoredEntries : Registry :=
  [("libloading", []), ("libc", []), ("dlib", []), ("wayland_sys", []),
   ("shared_library", []), ("wayland_client", waylandClientList),
   ("tempfile", []), ("wayland_window", waylandWindowList),
   ("wayland_kbd", []), ("winit", [])]

/-- The ten library identifiers of the literal, in source assignment order. -/
def registryKeys : List String :=
  ["libloading", "libc", "dlib", "wayland_sys", "shared_library",
   "wayland_client", "tempfile", "wayland_window", "wayland_kbd", "winit"]

/-- The host registration hook: takes the registry, may throw. -/
def Hook : Type := Registry → Except String Unit

/-- The global bindings the script can observe or modify: the hook
`window.register_implementors` (`none` when undefined), the buffered slot
`window.pending_implementors` (`none` when unset), and an abstract component
standing for every other global binding. -/
structure Window (α : Type) where
  register_implementors : Option Hook
  pending_implementors : Option Registry
  other : α

/-- Observable outcome of running the IIFE: the resulting global state, the
arguments the hook was invoked with (in order), the values the script itself
wrote to `pending_implementors` (in order), and the exception propagating out
of the hook, if any. -/
structure LoadResult (α : Type) where
  window : Window α
  calls : List Registry
  pendingWrites : List Registry
  thrown : Option String

/-- The publish step of the IIFE: `if (window.register_implementors) \x7b
window.register_implementors(implementors); \x7d else \x7b
window.pending_implementors = implementors; \x7d`.  When the hook is defined
it is invoked once with `implementors` and the script writes nothing; an
exception it throws propagates uncaught.  When it is undefined the registry is
stored in `pending_implementors`. -/
def loadStep {α : Type} (w : Window α) : LoadResult α :=
  match w.register_implementors with
  | some f =>
      { window := w, calls := [implementors], pendingWrites := [],
        thrown :=
          match f implementors with
          | Except.ok _ => none
          | Except.error e => some e }
  | none =>
      { window := { w with pending_implementors := some implementors },
        calls := [], pendingWrites := [implementors], thrown := none }

/-- A hook that accepts the registry without throwing (used in witnesses). -/
def hookOk : Hook := fun _ => Except.ok ()

/-- A concrete window with the hook defined and the buffered slot unset. -/
def windowWithHook : Window Unit :=
  { register_implementors := some hookOk, pending_implementors := none,
    other := () }

/-- A concrete window with the hook undefined and the buffered slot unset. -/
def windowNoHook : Window Unit :=
  { register_implementors := none, pending_implementors := none, other := () }

set_option maxRecDepth 400000

/-- Any registry the publish step hands over, whether as a hook argument or as
a value written to the buffered slot, is the `implementors` literal itself. -/
theorem handed_eq_implementors {a : Type} {w : Window a} {rg : Registry}
    (h : rg ∈ (loadStep w).calls ++ (loadStep w).pendingWrites) :
    rg = implementors := by
  revert h
  unfold loadStep
  cases w.register_implementors with
  | none => intro h; simpa using h
  | some f => intro h; simpa using h

/-- C1: for each of the two possible pre-load states of the global hook
(defined / undefined), running the publish step results in exactly one of:
(a) the hook is called once with the exact registry value and the step writes
nothing to the buffered slot, or (b) the step makes no hook call and writes the
exact registry value to the buffered slot; never both, and never neither. -/
theorem c1_exactly_one_path {a : Type} (w : Window a) :
    ((loadStep w).calls = [implementors] ∧ (loadStep w).pendingWrites = [] ∧
      ¬((loadStep w).calls = [] ∧ (loadStep w).pendingWrites = [implementors])) ∨
    ((loadStep w).calls = [] ∧ (loadStep w).pendingWrites = [implementors] ∧
      ¬((loadStep w).calls = [implementors] ∧ (loadStep w).pendingWrites = [])) := by
  unfold loadStep
  cases w.register_implementors with
  | none => right; simp
  | some f => left; simp

/-- Witness for C1 at a concrete window with the hook undefined. -/
theorem c1_exactly_one_path_witness :
    ((loadStep windowNoHook).calls = [implementors] ∧
      (loadStep windowNoHook).pendingWrites = [] ∧
      ¬((loadStep windowNoHook).calls = [] ∧
          (loadStep windowNoHook).pendingWrites = [implementors])) ∨
    ((loadStep windowNoHook).calls = [] ∧
      (loadStep windowNoHook).pendingWrites = [implementors] ∧
      ¬((loadStep windowNoHook).calls = [implementors] ∧
          (loadStep windowNoHook).pendingWrites = [])) :=
  c1_exactly_one_path windowNoHook

/-- C2: if the global hook `register_implementors` is defined before the
component loads, the publish step invokes it exactly once, passing the full
registry, whose key sequence is exactly the library identifiers of the
literal. -/
theorem c2_hook_called_once {a : Type} (w : Window a) (f : Hook)
    (h : w.register_implementors = some f) :
    (loadStep w).calls = [implementors] ∧
    implementors.map Prod.fst = registryKeys := by
  refine ⟨?_, by decide⟩
  unfold loadStep
  rw [h]

/-- Witness for C2 at a concrete window whose hook is defined. -/
theorem c2_hook_called_once_witness :
    (loadStep windowWithHook).calls = [implementors] ∧
    implementors.map Prod.fst = registryKeys :=
  c2_hook_called_once windowWithHook hookOk rfl

/-- C3: if the global hook is not defined at load time, then after the publish
step the global slot `pending_implementors` holds the registry value. -/
theorem c3_buffered_when_hook_absent {a : Type} (w : Window a)
    (h : w.register_implementors = none) :
    (loadStep w).window.pending_implementors = some implementors := by
  unfold loadStep
  rw [h]

/-- Witness for C3 at a concrete window whose hook is undefined. -/
theorem c3_buffered_when_hook_absent_witness :
    (loadStep windowNoHook).window.pending_implementors = some implementors :=
  c3_buffered_when_hook_absent windowNoHook rfl

/-- C4: non-interference of the two paths: the publish step never both calls
the hook and writes the buffered slot, so on the hook-present path the slot is
not written by the step and on the hook-absent path the hook is not called. -/
theorem c4_non_interference {a : Type} (w : Window a) :
    (loadStep w).calls = [] ∨ (loadStep w).pendingWrites = [] := by
  unfold loadStep
  cases w.register_implementors with
  | none => left; rfl
  | some f => right; rfl

/-- Witness for C4 at a concrete window whose hook is defined. -/
theorem c4_non_interference_witness :
    (loadStep windowWithHook).calls = [] ∨
    (loadStep windowWithHook).pendingWrites = [] :=
  c4_non_interference windowWithHook

/-- C5: registry fidelity: every registry handed to the host by the publish
step (via the hook call or the buffered slot) equals the authored table
literal: the same keys in the same order, each bound to the authored fragment
list with the same strings in the same order, nothing added, removed,
reordered, or mutated. -/
theorem c5_registry_fidelity {a : Type} (w : Window a) (rg : Registry)
    (h : rg ∈ (loadStep w).calls ++ (loadStep w).pendingWrites) :
    rg = authoredEntries := by
  rw [handed_eq_implementors h]
  decide

/-- Witness for C5: the registry buffered by a hookless load is the authored
table. -/
theorem c5_registry_fidelity_witness :
    implementors ∈ (loadStep windowNoHook).calls ++
      (loadStep windowNoHook).pendingWrites ∧
    implementors = authoredEntries :=
  ⟨by decide, c5_registry_fidelity windowNoHook implementors (by decide)⟩

/-- C6: registry well-formedness: every key present in the constructed
registry is bound to a (possibly empty) list of fragment strings, and the
publish step preserves this: each registry it hands over binds the key to that
same list. -/
theorem c6_registry_wellformed {a : Type} (w : Window a) (k : String)
    (h : k ∈ implementors.map Prod.fst) :
    ∃ l : List Fragment, objGet implementors k = some l ∧
      ∀ rg ∈ (loadStep w).calls ++ (loadStep w).pendingWrites,
        objGet rg k = some l := by
  have hmap : implementors.map Prod.fst = registryKeys := by decide
  rw [hmap] at h
  simp only [registryKeys, List.mem_cons, List.not_mem_nil, or_false] at h
  rcases h with rfl | rfl | rfl | rfl | rfl | rfl | rfl | rfl | rfl | rfl
  all_goals first
    | exact ⟨[], by decide, fun rg hrg => by rw [handed_eq_implementors hrg]; decide⟩
    | exact ⟨waylandClientList, by decide,
        fun rg hrg => by rw [handed_eq_implementors hrg]; decide⟩
    | exact ⟨waylandWindowList, by decide,
        fun rg hrg => by rw [handed_eq_implementors hrg]; decide⟩

/-- Witness for C6 at the key `winit` in a window whose hook is defined. -/
theorem c6_registry_wellformed_witness :
    ∃ l : List Fragment, objGet implementors "winit" = some l ∧
      ∀ rg ∈ (loadStep windowWithHook).calls ++
          (loadStep windowWithHook).pendingWrites,
        objGet rg "winit" = some l :=
  c6_registry_wellformed windowWithHook "winit" (by decide)

/-- C7: deterministic construction: the registry construction reads nothing
from the ambient environment, so evaluating it in any two isolated
environments (of any two ambient-state types) yields equal registries. -/
theorem c7_deterministic_construction {a b : Type} (env1 : a) (env2 : b) :
    buildRegistry env1 = buildRegistry env2 :=
  rfl

/-- Witness for C7 across two concrete unrelated environments. -/
theorem c7_deterministic_construction_witness :
    buildRegistry () = buildRegistry (0 : Nat) :=
  c7_deterministic_construction () (0 : Nat)

/-- C8: totality: the publish step raises no error of its own: any exception
propagating out of the step was raised by the host hook on the registry, and
whenever the hook is undefined or returns successfully on the registry the
step completes without exception. -/
theorem c8_no_intrinsic_failure {a : Type} (w : Window a) :
    (∀ e, (loadStep w).thrown = some e →
        ∃ f, w.register_implementors = some f ∧
          f implementors = Except.error e) ∧
    ((∀ f, w.register_implementors = some f → f implementors = Except.ok ()) →
        (loadStep w).thrown = none) := by
  unfold loadStep
  cases hw : w.register_implementors with
  | none => exact ⟨fun e he => by simp at he, fun _ => rfl⟩
  | some f =>
    constructor
    · intro e he
      have he2 : (match f implementors with
            | Except.ok _ => none
            | Except.error e => some e) = some e := he
      refine ⟨f, rfl, ?_⟩
      cases hfi : f implementors with
      | ok u => rw [hfi] at he2; simp at he2
      | error e0 =>
        rw [hfi] at he2
        simp only [Option.some.injEq] at he2
        rw [he2]
    · intro hok
      have hf : f implementors = Except.ok () := hok f rfl
      show (match f implementors with
            | Except.ok _ => none
            | Except.error e => some e) = none
      rw [hf]

/-- Witness for C8: a load with a non-throwing hook completes without
exception. -/
theorem c8_no_intrinsic_failure_witness :
    (loadStep windowWithHook).thrown = none :=
  (c8_no_intrinsic_failure windowWithHook).2 (by intro f hf; cases hf; rfl)

/-- C9: exact registry contents: the literal has exactly the ten authored
keys in order; eight of them are bound to the empty list; `wayland_window` is
bound to its four pairwise-distinct fragments; `wayland_client` is bound to an
eight-element list in which each of its four pairwise-distinct fragments
occurs exactly twice (no deduplication is performed). -/
theorem c9_exact_contents :
    implementors.map Prod.fst = registryKeys ∧
    objGet implementors "libloading" = some [] ∧
    objGet implementors "libc" = some [] ∧
    objGet implementors "dlib" = some [] ∧
    objGet implementors "wayland_sys" = some [] ∧
    objGet implementors "shared_library" = some [] ∧
    objGet implementors "tempfile" = some [] ∧
    objGet implementors "wayland_kbd" = some [] ∧
    objGet implementors "winit" = some [] ∧
    objGet implementors "wayland_window" = some waylandWindowList ∧
    waylandWindowList.Nodup ∧
    waylandWindowList.length = 4 ∧
    objGet implementors "wayland_client" = some waylandClientList ∧
    waylandClientList.length = 8 ∧
    [fragWcResize, fragWcTransient, fragWcSeat, fragWcOutput].Nodup ∧
    waylandClientList.count fragWcResize = 2 ∧
    waylandClientList.count fragWcTransient = 2 ∧
    waylandClientList.count fragWcSeat = 2 ∧
    waylandClientList.count fragWcOutput = 2 := by
  decide

/-- C10: frame property of the publish step: the abstract remainder of the
global state is never changed, the hook binding is never changed, and when the
hook is defined the prior value of the buffered slot (including being unset)
is left unchanged. -/
theorem c10_frame_property {a : Type} (w : Window a) :
    (loadStep w).window.other = w.other ∧
    (loadStep w).window.register_implementors = w.register_implementors ∧
    (w.register_implementors.isSome = true →
      (loadStep w).window.pending_implementors = w.pending_implementors) := by
  unfold loadStep
  cases hw : w.register_implementors with
  | none => simp
  | some f => simp [hw]

/-- Witness for C10 at a concrete window whose hook is defined and whose slot
is unset. -/
theorem c10_frame_property_witness :
    (loadStep windowWithHook).window.other = windowWithHook.other ∧
    (loadStep windowWithHook).window.pending_implementors =
      windowWithHook.pending_implementors :=
  ⟨(c10_frame_property windowWithHook).1,
   (c10_frame_property windowWithHook).2.2 rfl⟩

end Implementors
